import Mathlib

/-!
Shallow embedding of `src/apps/airbnb_mgmt/airbnb_mgmt.py` (class
`AirbnbManagement`), the control loop for short-term-rental units.

Python dates are modelled by their ordinal (`Int`): `date.today()` becomes a
`today : Date` parameter, equality and `<=` on dates are equality and `<=` on
ordinals.  Python `time` values are `(hour, minute, second)` triples compared
lexicographically, exactly as Python compares `time` objects.  The `shelve`
database is a total map `String → Option Date`; `self.db.get(key)` is
application, `self.db[key] = v` is pointwise update.  Host-platform reads
(`get_state`, `get_history`) are modelled by an environment record holding the
value each read would produce this poll; a read that would return a
non-string or an unparsable string is recorded as such and the embedded
reader raises, mirroring the `assert isinstance(state, str)` /
`datetime.fromisoformat` failure.  Service calls, notifications and log lines
are accumulated in an effect list.  An exception aborts the poll: the result
carries the database as already written, the effects already emitted, and the
error.
-/

namespace AirbnbMgmt

/-- Calendar dates as proleptic ordinals (`date.toordinal`); the Python code
only uses `==` and `<=` on dates, which this models exactly. -/
abbrev Date := Int

/-- Python `datetime.time`, restricted to the fields the program reads
(`hour`, `minute`, `second`).  Comparison in Python is lexicographic. -/
structure Time where
  hour : Nat
  minute : Nat
  second : Nat
deriving DecidableEq

/-- Python `time.__lt__`: lexicographic on (hour, minute, second). -/
def Time.ltb (a b : Time) : Bool :=
  decide (a.hour < b.hour) ||
    (decide (a.hour = b.hour) &&
      (decide (a.minute < b.minute) ||
        (decide (a.minute = b.minute) && decide (a.second < b.second))))

/-- Python `datetime.datetime`, as the pair of its date and its time. -/
structure DateTime where
  date : Date
  time : Time
deriving DecidableEq

/-- Python `datetime.__lt__`: lexicographic on (date, time). -/
def DateTime.ltb (a b : DateTime) : Bool :=
  decide (a.date < b.date) || (decide (a.date = b.date) && Time.ltb a.time b.time)

/-- The `shelve` database opened in `initialize`: a map from string key to the
date stored for it (`none` when the key was never written). -/
abbrev Db := String → Option Date

/-- A freshly created (empty) shelve database. -/
def emptyDb : Db := fun _ => none

/-- `_db_set_today` (airbnb_mgmt.py lines 318-324): `self.db[key] = date.today()`. -/
def db_set_today (db : Db) (key : String) (today : Date) : Db :=
  fun k => if k = key then some today else db k

/-- `_db_is_today` (airbnb_mgmt.py lines 327-336):
`return self.db.get(key) == date.today()`.  In Python `None == date` is
`False`, so a missing key compares unequal. -/
def db_is_today (db : Db) (key : String) (today : Date) : Bool :=
  decide (db key = some today)

/-- `CalendarEventInfo` TypedDict: one Rental Control calendar event. -/
structure CalendarEventInfo where
  name : String
  start_date : Date
  end_date : Date
deriving DecidableEq

/-- `RentalEventInfo` TypedDict: the classified events.  A `some` value is the
entity name of the calendar event; `none` means no applicable event. -/
structure RentalEventInfo where
  checkin_today_evt : Option String
  checkout_today_evt : Option String
  checkin_active_evt : Option String
deriving DecidableEq

/-- The classification step of `_get_rental_events` (lines 120-143): the three
if/elif chains computing checkin-today, checkin-active and checkout-today from
the two calendar events and today's date. -/
def classifyRentalEvents (events0 events1 : CalendarEventInfo) (today : Date) :
    RentalEventInfo :=
  let checkin_today : Option String :=
    if events1.start_date = today then some events1.name
    else if events0.start_date = today then some events0.name
    else none
  let checkin_active : Option String :=
    if events1.start_date ≤ today then some events1.name
    else if events0.start_date ≤ today then some events0.name
    else none
  let checkout_today : Option String :=
    if events0.end_date = today then some events0.name
    else none
  { checkin_today_evt := checkin_today,
    checkout_today_evt := checkout_today,
    checkin_active_evt := checkin_active }

/-- `_sub_time` (lines 299-315):
`int(timedelta(hours=t1.hour - t2.hour, minutes=t1.minute - t2.minute).total_seconds() / 60)`.
`total_seconds` of that timedelta is exactly `3600*(h1-h2) + 60*(m1-m2)`
(a float, exact at these magnitudes); `int(...)` truncates toward zero, which
`Int.tdiv` models. -/
def sub_time (time1 time2 : Time) : Int :=
  Int.tdiv (3600 * ((time1.hour : Int) - (time2.hour : Int))
    + 60 * ((time1.minute : Int) - (time2.minute : Int))) 60

/-- Outcome of one `self.get_state(entity, attr)` read that
`_get_state_datetime` will consume.  `missing` models a `None`/non-string
state (the `assert isinstance(state, str)` raises `AssertionError`);
`unparsable` models a string `datetime.fromisoformat` rejects (`ValueError`);
`value` carries the datetime the string parses to. -/
inductive StateReadResult where
  | missing
  | unparsable (raw : String)
  | value (dt : DateTime)
deriving DecidableEq

/-- Outcome of the `get_state` + `time.fromisoformat(str(...))` read in
`hvac_on`.  A `None` state becomes the string `"None"`, which fails to parse,
so missing and unparsable states collapse into `unparsable`. -/
inductive TimeReadResult where
  | unparsable (raw : String)
  | value (t : Time)
deriving DecidableEq

/-- The Python exceptions that can escape a poll.  `stateParse` is the
`AssertionError`/`ValueError` from `_get_state_datetime` (the spec's
`StateParseError`); `timeParse` the `ValueError` from `time.fromisoformat` in
`hvac_on`; `historyEmpty` the `assert unlocks` failure; `unlockMissing` the
`assert unlock_times[...] and unlock_times[...]` failure in `cleaner_alert`. -/
inductive PollError where
  | stateParse
  | timeParse
  | historyEmpty
  | unlockMissing
deriving DecidableEq

/-- One entry of the history returned by `self.get_history(...)`: a state
label and its `last_changed` timestamp. -/
structure HistEntry where
  state : String
  last_changed : DateTime
deriving DecidableEq

/-- The four calendar reads `_get_rental_events` performs (the
`for evt_idx in (0, 1)` loop unrolled): `start`/`end` attributes of the
`event_0` and `event_1` sensors. -/
structure CalFeed where
  start0 : StateReadResult
  end0 : StateReadResult
  start1 : StateReadResult
  end1 : StateReadResult
deriving DecidableEq

/-- Everything the host platform would answer during one poll: today's date
(`date.today()`), the current time-of-day (`datetime.now().time()`), the four
calendar reads, the check-in-time entity read, and the door-operator history
(`get_history` returns a list of lists of entries). -/
structure Env where
  today : Date
  now : Time
  feed : CalFeed
  checkinTimeRead : TimeReadResult
  history : List (List HistEntry)
deriving DecidableEq

/-- The per-unit configuration gathered in `initialize`: the `self.unit`
fields plus the configured times.  `default_checkin_time` stays a string, as
in the source (it is only passed through to a service call). -/
structure Config where
  name : String
  code : String
  cal_code : String
  thermostat_key : String
  default_checkin_time : String
  checkout_time : Time
  cleaner_check_time : Time
deriving DecidableEq

/-- External side effects of one poll: `self.log`/`self.error` lines and the
`self.call_service` invocations, in program order. -/
inductive Effect where
  | log (msg : String)
  | logError (msg : String)
  | callSetDatetime (timeVal : String) (entity : String)
  | callClimateOff (entity : String)
  | callNotify (service target title message : String)
  | callSetTemperature (entity hvacMode : String) (temperature : Int)
deriving DecidableEq

/-- Result of a (possibly raising) stretch of the poll: the database as
already written, the effects already emitted, and the exception if one was
raised (`none` = ran to completion). -/
structure ActResult where
  db : Db
  effects : List Effect
  err : Option PollError

/-- `_get_state_datetime` (lines 283-296): `assert isinstance(state, str)`
then `datetime.fromisoformat(state)`; both failure modes raise. -/
def get_state_datetime : StateReadResult → Except PollError DateTime
  | .missing => .error .stateParse
  | .unparsable _ => .error .stateParse
  | .value dt => .ok dt

/-- The sensor entity name `f'sensor.rental_control_{unit_code}_event_{idx}'`. -/
def eventName (unit_code : String) (idx : Nat) : String :=
  "sensor.rental_control_" ++ unit_code ++ "_event_" ++ toString idx

/-- `_get_rental_events` (lines 90-143): read start/end of the two calendar
events (first failing read aborts), take the `.date()` component, and
classify. -/
def get_rental_events (cfg : Config) (env : Env) :
    Except PollError RentalEventInfo := do
  let s0 ← get_state_datetime env.feed.start0
  let e0 ← get_state_datetime env.feed.end0
  let s1 ← get_state_datetime env.feed.start1
  let e1 ← get_state_datetime env.feed.end1
  let events0 : CalendarEventInfo :=
    { name := eventName cfg.cal_code 0, start_date := s0.date, end_date := e0.date }
  let events1 : CalendarEventInfo :=
    { name := eventName cfg.cal_code 1, start_date := s1.date, end_date := e1.date }
  pure (classifyRentalEvents events0 events1 env.today)

/-- Python `\s` (no re.UNICODE surprises arise in the labels involved):
space, tab, newline, carriage return, vertical tab, form feed. -/
def isPyWhitespace (c : Char) : Bool :=
  c = ' ' || c = '\t' || c = '\n' || c = '\r' || c = '\x0b' || c = '\x0c'

/-- Consume a literal (given lowercase) case-insensitively; return the rest. -/
def eatLiteralCI : List Char → List Char → Option (List Char)
  | [], rest => some rest
  | _ :: _, [] => none
  | p :: ps, c :: cs => if c.toLower = p then eatLiteralCI ps cs else none

/-- Consume any further whitespace (the greedy tail of `\s+`). -/
def eatSpacesRest : List Char → List Char
  | [] => []
  | c :: cs => if isPyWhitespace c then eatSpacesRest cs else c :: cs

/-- Consume `\s+`: at least one whitespace character, then any more. -/
def eatSpaces1 : List Char → Option (List Char)
  | [] => none
  | c :: cs => if isPyWhitespace c then some (eatSpacesRest cs) else none

/-- `cleaner_re.search(s)`:
`re.compile(r'^Maria\s+Reno\s+cleaning\s+fairies', re.IGNORECASE)` — anchored
at the start of the string by the `^`. -/
def cleanerSearch (s : String) : Bool :=
  (do
    let r1 ← eatLiteralCI "maria".toList s.toList
    let r2 ← eatSpaces1 r1
    let r3 ← eatLiteralCI "reno".toList r2
    let r4 ← eatSpaces1 r3
    let r5 ← eatLiteralCI "cleaning".toList r4
    let r6 ← eatSpaces1 r5
    eatLiteralCI "fairies".toList r6).isSome

/-- `guest_re.search(s)`: `re.compile(r'^\d{2}/\d{2}', re.IGNORECASE)` —
two digits, a slash, two digits, at the start of the string. -/
def guestSearch (s : String) : Bool :=
  match s.toList with
  | a :: b :: c :: d :: e :: _ =>
    a.isDigit && b.isDigit && c = '/' && d.isDigit && e.isDigit
  | _ => false

/-- The most recent unlock times found by `_get_last_unlocks`. -/
structure UnlockTimes where
  cleaner_unlock : Option DateTime
  guest_unlock : Option DateTime
deriving DecidableEq

/-- One iteration of the `for unlock in reversed(unlocks[0])` loop body
(lines 271-276): record the entry's timestamp for each pattern not yet
matched. -/
def unlockStep (acc : UnlockTimes) (u : HistEntry) : UnlockTimes :=
  let acc1 :=
    if acc.cleaner_unlock.isNone && cleanerSearch u.state then
      { acc with cleaner_unlock := some u.last_changed }
    else acc
  if acc1.guest_unlock.isNone && guestSearch u.state then
    { acc1 with guest_unlock := some u.last_changed }
  else acc1

/-- The scan of `_get_last_unlocks` (lines 246-280) over the first history
list, working backwards from the most recent entry. -/
def get_last_unlocks (entries : List HistEntry) : UnlockTimes :=
  entries.reverse.foldl unlockStep { cleaner_unlock := none, guest_unlock := none }

/-- `reset_checkin_time` (lines 146-163): unless already done today, log,
call `input_datetime/set_datetime` with the default check-in time, and record
today under `last_checkin_reset`. -/
def reset_checkin_time (cfg : Config) (env : Env) (db : Db) : Db × List Effect :=
  if db_is_today db "last_checkin_reset" env.today then (db, [])
  else
    (db_set_today db "last_checkin_reset" env.today,
      [Effect.log ("Resetting checkin time to " ++ cfg.default_checkin_time),
        Effect.callSetDatetime cfg.default_checkin_time
          ("input_datetime.str_" ++ cfg.code ++ "_checkin_time")])

/-- `hvac_off` (lines 208-222): after the checkout time, once per day, log,
call `climate/turn_off` on the unit's thermostat, and record today under
`last_hvac_off`. -/
def hvac_off (cfg : Config) (env : Env) (db : Db) : Db × List Effect :=
  if Time.ltb cfg.checkout_time env.now
      && !(db_is_today db "last_hvac_off" env.today) then
    (db_set_today db "last_hvac_off" env.today,
      [Effect.log "Turning off thermostat",
        Effect.callClimateOff cfg.thermostat_key])
  else (db, [])

/-- The `[{name}] Check Cleaners` subject of the cleaner alert. -/
def alertTitle (cfg : Config) : String := "[" ++ cfg.name ++ "] Check Cleaners"

/-- The `Check cleaners for {name}` body of the cleaner alert. -/
def alertMessage (cfg : Config) : String := "Check cleaners for " ++ cfg.name

/-- `cleaner_alert` (lines 166-206): after the cleaner-check time, once per
day, fetch the last unlocks.  An empty history fails `assert unlocks`; a
missing cleaner or guest match logs an error and then fails the
`assert unlock_times[...] and unlock_times[...]`.  Otherwise: if the guest
unlocked more recently than the cleaner, log and send the alert on both
notify channels; else log the OK line; in both cases record today under
`last_cleaner_check`. -/
def cleaner_alert (cfg : Config) (env : Env) (db : Db) : ActResult :=
  if Time.ltb cfg.cleaner_check_time env.now
      && !(db_is_today db "last_cleaner_check" env.today) then
    match env.history with
    | [] => { db := db, effects := [], err := some PollError.historyEmpty }
    | first :: _ =>
      let unlock_times := get_last_unlocks first
      match unlock_times.cleaner_unlock, unlock_times.guest_unlock with
      | some cleanerT, some guestT =>
        if DateTime.ltb cleanerT guestT then
          { db := db_set_today db "last_cleaner_check" env.today,
            effects :=
              [Effect.log "ALERT - Checked for recent cleaning",
                Effect.callNotify "notify/mail_page_amzn" "jrshann@amazon.com"
                  (alertTitle cfg) (alertMessage cfg),
                Effect.callNotify "notify/mail_page_amzn"
                  "14158897287@msg.fi.google.com"
                  (alertTitle cfg) (alertMessage cfg)],
            err := none }
        else
          { db := db_set_today db "last_cleaner_check" env.today,
            effects := [Effect.log "OK - Checked for recent cleaning"],
            err := none }
      | _, _ =>
        { db := db,
          effects := [Effect.logError "Could not determine last unlock times"],
          err := some PollError.unlockMissing }
  else { db := db, effects := [], err := none }

/-- `hvac_on` (lines 224-244): parse the unit's configured check-in time
(raises on an unparsable state); if `_sub_time(checkin_time, now) < 30` and
not yet done today, log, call `climate/set_temperature` with `hvac_mode=cool`,
`temperature=23`, and record today under `last_hvac_on`. -/
def hvac_on (cfg : Config) (env : Env) (db : Db) : ActResult :=
  match env.checkinTimeRead with
  | .unparsable _ => { db := db, effects := [], err := some PollError.timeParse }
  | .value checkin_time =>
    if decide (sub_time checkin_time env.now < 30)
        && !(db_is_today db "last_hvac_on" env.today) then
      { db := db_set_today db "last_hvac_on" env.today,
        effects :=
          [Effect.log "Turning on thermostat",
            Effect.callSetTemperature cfg.thermostat_key "cool" 23],
        err := none }
    else { db := db, effects := [], err := none }

/-- The first log line of `check_mgmt`. -/
def execMsg : String := "Executing Airbnb Management activities"

/-- The two statements under `if rental_events['checkin_today_evt']:` in
`check_mgmt`: `self.cleaner_alert()` then `self.hvac_on()`.  An exception in
`cleaner_alert` propagates, skipping `hvac_on`; writes already made persist. -/
def checkin_actions (cfg : Config) (env : Env) (db : Db) : ActResult :=
  let r3 := cleaner_alert cfg env db
  match r3.err with
  | some e => { db := r3.db, effects := r3.effects, err := some e }
  | none =>
    let r4 := hvac_on cfg env r3.db
    { db := r4.db, effects := r3.effects ++ r4.effects, err := r4.err }

/-- The `if rental_events['checkout_today_evt']:` guard in `check_mgmt`:
run `hvac_off` when a checkout is happening today, else do nothing. -/
def stage_off (cfg : Config) (env : Env) (co : Bool) (db : Db) : Db × List Effect :=
  if co then hvac_off cfg env db else (db, [])

/-- The `if rental_events['checkin_today_evt']:` guard in `check_mgmt`:
run the check-in actions when a checkin is happening today, else do nothing. -/
def stage_ci (cfg : Config) (env : Env) (ci : Bool) (db : Db) : ActResult :=
  if ci then checkin_actions cfg env db
  else { db := db, effects := [], err := none }

/-- The body of `check_mgmt` after a successful `_get_rental_events`: reset,
hvac-off when checking out today, then the check-in actions when checking in
today. -/
def check_mgmt_actions (cfg : Config) (env : Env)
    (rental_events : RentalEventInfo) (db : Db) : ActResult :=
  let r1 := reset_checkin_time cfg env db
  let r2 := stage_off cfg env rental_events.checkout_today_evt.isSome r1.1
  let r3 := stage_ci cfg env rental_events.checkin_today_evt.isSome r2.1
  { db := r3.db, effects := r1.2 ++ r2.2 ++ r3.effects, err := r3.err }

/-- `check_mgmt` (lines 75-88): one poll for one unit.  Log, classify the
calendar (a failing read aborts with the database untouched), then run the
guarded actions in order. -/
def check_mgmt (cfg : Config) (env : Env) (db : Db) : ActResult :=
  match get_rental_events cfg env with
  | .error e => { db := db, effects := [Effect.log execMsg], err := some e }
  | .ok rental_events =>
    let r := check_mgmt_actions cfg env rental_events db
    { db := r.db, effects := Effect.log execMsg :: r.effects, err := r.err }

/-- A sequence of polls of `check_mgmt` sharing the persistent database (what
`run_every` produces over time); returns the final database and the
concatenated effects. -/
def run_polls (cfg : Config) (envs : List Env) (db : Db) : Db × List Effect :=
  match envs with
  | [] => (db, [])
  | env :: rest =>
    let r := check_mgmt cfg env db
    let rr := run_polls cfg rest r.db
    (rr.1, r.effects ++ rr.2)

/-- Number of effects in a list satisfying a predicate. -/
def countEff (p : Effect → Bool) (l : List Effect) : Nat := (l.filter p).length

/-- Recognizes the check-in-time reset service call. -/
def isCallSetDatetime : Effect → Bool
  | .callSetDatetime _ _ => true
  | _ => false

/-- Recognizes the climate turn-off service call. -/
def isCallClimateOff : Effect → Bool
  | .callClimateOff _ => true
  | _ => false

/-- Recognizes a notification service call. -/
def isCallNotify : Effect → Bool
  | .callNotify _ _ _ _ => true
  | _ => false

/-- Recognizes the climate set-temperature service call. -/
def isCallSetTemperature : Effect → Bool
  | .callSetTemperature _ _ _ => true
  | _ => false

/-- Recognizes any service call (as opposed to a log line). -/
def isServiceCall (e : Effect) : Bool :=
  isCallSetDatetime e || isCallClimateOff e || isCallNotify e || isCallSetTemperature e

/-- Concrete unit configuration used to evaluate the theorems on a sample. -/
def cfgW : Config where
  name := "str1"
  code := "u1"
  cal_code := "c1"
  thermostat_key := "climate.t"
  default_checkin_time := "16:00:00"
  checkout_time := Time.mk 11 0 0
  cleaner_check_time := Time.mk 14 0 0

/-- Sample calendar feed: event 0 checked in yesterday and ends today, event
1 starts today (so today has both a checkout and a checkin). -/
def feedW : CalFeed where
  start0 := .value (DateTime.mk (-1) (Time.mk 16 0 0))
  end0 := .value (DateTime.mk 0 (Time.mk 11 0 0))
  start1 := .value (DateTime.mk 0 (Time.mk 16 0 0))
  end1 := .value (DateTime.mk 2 (Time.mk 11 0 0))

/-- Sample door history (inner list): a cleaner unlock yesterday morning,
then a guest unlock later (most recent). -/
def histW1 : List HistEntry :=
  [HistEntry.mk "Maria Reno cleaning fairies" (DateTime.mk (-1) (Time.mk 9 0 0)),
    HistEntry.mk "12/34 John" (DateTime.mk 0 (Time.mk 10 0 0))]

/-- Sample door history as `get_history` returns it (a list of lists). -/
def histW : List (List HistEntry) := [histW1]

/-- Sample door history entries matching the guest pattern but never the
cleaner pattern. -/
def histNC1 : List HistEntry :=
  [HistEntry.mk "12/34 John" (DateTime.mk 0 (Time.mk 10 0 0))]

/-- Sample door history with no cleaner match, as a list of lists. -/
def histNoCleanerW : List (List HistEntry) := [histNC1]

/-- True when a `get_state` read outcome would make `_get_state_datetime`
raise (missing state or unparsable string). -/
def isBadRead : StateReadResult → Bool
  | .value _ => false
  | _ => true

/-- Sample poll environment: day 0 at 15:40, both calendar events relevant,
check-in time configured to 16:00. -/
def envW : Env where
  today := 0
  now := Time.mk 15 40 0
  feed := feedW
  checkinTimeRead := .value (Time.mk 16 0 0)
  history := histW

/-- The sample environment at 15:30 (exactly 30 minutes before check-in). -/
def envW30 : Env := { envW with now := Time.mk 15 30 0 }

/-- The sample environment at 15:31 (29 minutes before check-in). -/
def envW31 : Env := { envW with now := Time.mk 15 31 0 }

/-- The sample environment with a door history lacking any cleaner match. -/
def envNoCleanerW : Env := { envW with history := histNoCleanerW }

/-- The sample environment with a missing calendar state (the `event_0`
sensor's `start` attribute reads back as `None`). -/
def envBadFeedW : Env := { envW with feed := { feedW with start0 := .missing } }

@[simp]
theorem countEff_nil (p : Effect → Bool) : countEff p [] = 0 := rfl

@[simp]
theorem countEff_cons (p : Effect → Bool) (e : Effect) (l : List Effect) :
    countEff p (e :: l) = (if p e then 1 else 0) + countEff p l := by
  by_cases hp : p e <;>
    simp [countEff, List.filter_cons, hp, Nat.add_comm]

@[simp]
theorem countEff_append (p : Effect → Bool) (a b : List Effect) :
    countEff p (a ++ b) = countEff p a + countEff p b := by
  simp [countEff, List.filter_append]

@[simp]
theorem db_set_today_apply (db : Db) (key : String) (today : Date) (k : String) :
    db_set_today db key today k = if k = key then some today else db k := rfl

/-- C10: `_sub_time(t1, t2)` is exactly `60*(t1.hour - t2.hour) +
(t1.minute - t2.minute)`: the seconds of both operands never enter the
computation, no rounding happens (the quotient is exact), the result can be
negative and is never reduced modulo 24 hours. -/
theorem C10_sub_time_exact (t1 t2 : Time) :
    sub_time t1 t2 =
      60 * ((t1.hour : Int) - (t2.hour : Int)) + ((t1.minute : Int) - (t2.minute : Int)) := by
  have h : 3600 * ((t1.hour : Int) - (t2.hour : Int))
      + 60 * ((t1.minute : Int) - (t2.minute : Int))
      = 60 * (60 * ((t1.hour : Int) - (t2.hour : Int))
        + ((t1.minute : Int) - (t2.minute : Int))) := by ring
  rw [sub_time, h, Int.mul_tdiv_cancel_left _ (by norm_num)]

/-- C3: after `_db_set_today key`, `_db_is_today key` holds while today is
unchanged; once today moves past the recorded date it is false again; and in
general `_db_is_today key` holds iff the stored record equals today. -/
theorem C3_guard_mark_then_check (db : Db) (key : String) (today : Date) :
    db_is_today (db_set_today db key today) key today = true ∧
    (∀ d2 : Date, today < d2 → db_is_today (db_set_today db key today) key d2 = false) ∧
    (∀ db2 : Db, db_is_today db2 key today = true ↔ db2 key = some today) := by
  refine ⟨by simp [db_is_today], ?_, ?_⟩
  · intro d2 h
    simp [db_is_today, db_set_today]
    exact ne_of_lt h
  · intro db2
    simp [db_is_today]

theorem C3_guard_mark_then_check_witness :
    db_is_today (db_set_today emptyDb "last_hvac_on" 5) "last_hvac_on" 5 = true ∧
    db_is_today (db_set_today emptyDb "last_hvac_on" 5) "last_hvac_on" 6 = false ∧
    (db_is_today (db_set_today emptyDb "last_hvac_on" 5) "last_hvac_on" 5 = true ↔
      db_set_today emptyDb "last_hvac_on" 5 "last_hvac_on" = some 5) := by
  obtain ⟨h1, h2, h3⟩ := C3_guard_mark_then_check emptyDb "last_hvac_on" 5
  exact ⟨h1, h2 6 (by norm_num), h3 _⟩

/-- C9: a key never written to the guard store (in particular any key of a
fresh empty store) is not "done today", so every guarded action is pending on
first run. -/
theorem C9_unwritten_key_pending (db : Db) (key : String) (today : Date)
    (h : db key = none) :
    db_is_today db key today = false := by
  simp [db_is_today, h]

theorem C9_unwritten_key_pending_witness :
    emptyDb "last_cleaner_check" = none ∧
    db_is_today emptyDb "last_cleaner_check" 0 = false :=
  ⟨rfl, C9_unwritten_key_pending emptyDb "last_cleaner_check" 0 rfl⟩

/-- C1: the classifier picks `events[1]` for checkin-today when its start is
today, else `events[0]` when its start is today, else none; analogously with
`<=` for checkin-active; checkout-today is `events[0]` exactly when its end is
today; and when both events start today the later slot `events[1]` wins. -/
theorem C1_classifier_rules (e0 e1 : CalendarEventInfo) (today : Date) :
    ((classifyRentalEvents e0 e1 today).checkin_today_evt =
      if e1.start_date = today then some e1.name
      else if e0.start_date = today then some e0.name
      else none) ∧
    ((classifyRentalEvents e0 e1 today).checkin_active_evt =
      if e1.start_date ≤ today then some e1.name
      else if e0.start_date ≤ today then some e0.name
      else none) ∧
    ((classifyRentalEvents e0 e1 today).checkout_today_evt =
      if e0.end_date = today then some e0.name else none) ∧
    (e1.start_date = today → e0.start_date = today →
      (classifyRentalEvents e0 e1 today).checkin_today_evt = some e1.name) := by
  refine ⟨rfl, rfl, rfl, ?_⟩
  intro h1 _
  simp [classifyRentalEvents, h1]

theorem C1_classifier_rules_witness :
    (CalendarEventInfo.mk "sensor.a" 0 2).start_date = (0 : Date) ∧
    (CalendarEventInfo.mk "sensor.b" 0 1).start_date = (0 : Date) ∧
    ((classifyRentalEvents (CalendarEventInfo.mk "sensor.b" 0 1)
        (CalendarEventInfo.mk "sensor.a" 0 2) 0).checkin_today_evt =
      if (CalendarEventInfo.mk "sensor.a" 0 2).start_date = (0 : Date) then
        some (CalendarEventInfo.mk "sensor.a" 0 2).name
      else if (CalendarEventInfo.mk "sensor.b" 0 1).start_date = (0 : Date) then
        some (CalendarEventInfo.mk "sensor.b" 0 1).name
      else none) ∧
    (classifyRentalEvents (CalendarEventInfo.mk "sensor.b" 0 1)
        (CalendarEventInfo.mk "sensor.a" 0 2) 0).checkin_today_evt = some "sensor.a" := by
  refine ⟨rfl, rfl, ?_, ?_⟩
  · exact (C1_classifier_rules (CalendarEventInfo.mk "sensor.b" 0 1)
      (CalendarEventInfo.mk "sensor.a" 0 2) 0).1
  · exact (C1_classifier_rules (CalendarEventInfo.mk "sensor.b" 0 1)
      (CalendarEventInfo.mk "sensor.a" 0 2) 0).2.2.2 rfl rfl

theorem check_mgmt_classify_error (cfg : Config) (env : Env) (db : Db)
    (e : PollError) (h : get_rental_events cfg env = .error e) :
    check_mgmt cfg env db = { db := db, effects := [Effect.log execMsg], err := some e } := by
  unfold check_mgmt
  rw [h]

/-- C5: with the check-in time readable and the guard not yet done today, a
signed difference of exactly 30 minutes leaves `hvac_on` inert, while 29
minutes or less (negative included) triggers the cooling command at the fixed
temperature and marks the guard done. -/
theorem C5_hvac_on_boundary (cfg : Config) (env : Env) (db : Db) (ct : Time)
    (hread : env.checkinTimeRead = TimeReadResult.value ct)
    (hdb : db_is_today db "last_hvac_on" env.today = false) :
    (sub_time ct env.now = 30 →
      hvac_on cfg env db = { db := db, effects := [], err := none }) ∧
    (sub_time ct env.now ≤ 29 →
      (hvac_on cfg env db).effects =
        [Effect.log "Turning on thermostat",
          Effect.callSetTemperature cfg.thermostat_key "cool" 23] ∧
      (hvac_on cfg env db).db "last_hvac_on" = some env.today ∧
      (hvac_on cfg env db).err = none) := by
  constructor
  · intro h30
    simp [hvac_on, hread, h30, hdb]
  · intro h29
    have hlt : sub_time ct env.now < 30 := by omega
    simp [hvac_on, hread, hdb, hlt]

theorem C5_hvac_on_boundary_witness :
    envW30.checkinTimeRead = TimeReadResult.value (Time.mk 16 0 0) ∧
    db_is_today emptyDb "last_hvac_on" envW30.today = false ∧
    ((sub_time (Time.mk 16 0 0) envW30.now = 30 →
      hvac_on cfgW envW30 emptyDb = { db := emptyDb, effects := [], err := none }) ∧
    (sub_time (Time.mk 16 0 0) envW30.now ≤ 29 →
      (hvac_on cfgW envW30 emptyDb).effects =
        [Effect.log "Turning on thermostat",
          Effect.callSetTemperature cfgW.thermostat_key "cool" 23] ∧
      (hvac_on cfgW envW30 emptyDb).db "last_hvac_on" = some envW30.today ∧
      (hvac_on cfgW envW30 emptyDb).err = none)) :=
  ⟨rfl, rfl, C5_hvac_on_boundary cfgW envW30 emptyDb (Time.mk 16 0 0) rfl rfl⟩

/-- C4: whenever the cleaner check runs (past the threshold, not yet done
today) and both unlock timestamps were found: a guest unlock strictly later
than the cleaner unlock sends the alert on both channels with the same title
and message; an equal-or-earlier guest unlock sends nothing and logs the OK
line; in either case the guard is marked done and no exception escapes. -/
theorem C4_cleaner_alert_decision (cfg : Config) (env : Env) (db : Db)
    (first : List HistEntry) (rest : List (List HistEntry))
    (cleanerT guestT : DateTime)
    (hh : env.history = first :: rest)
    (hc : (get_last_unlocks first).cleaner_unlock = some cleanerT)
    (hg : (get_last_unlocks first).guest_unlock = some guestT)
    (htime : Time.ltb cfg.cleaner_check_time env.now = true)
    (hdb : db_is_today db "last_cleaner_check" env.today = false) :
    (DateTime.ltb cleanerT guestT = true →
      (cleaner_alert cfg env db).effects =
        [Effect.log "ALERT - Checked for recent cleaning",
          Effect.callNotify "notify/mail_page_amzn" "jrshann@amazon.com"
            (alertTitle cfg) (alertMessage cfg),
          Effect.callNotify "notify/mail_page_amzn" "14158897287@msg.fi.google.com"
            (alertTitle cfg) (alertMessage cfg)]) ∧
    (DateTime.ltb cleanerT guestT = false →
      (cleaner_alert cfg env db).effects = [Effect.log "OK - Checked for recent cleaning"] ∧
      countEff isCallNotify (cleaner_alert cfg env db).effects = 0) ∧
    (cleaner_alert cfg env db).db "last_cleaner_check" = some env.today ∧
    (cleaner_alert cfg env db).err = none := by
  refine ⟨?_, ?_, ?_, ?_⟩
  · intro hlt
    simp [cleaner_alert, htime, hdb, hh, hc, hg, hlt]
  · intro hlt
    simp [cleaner_alert, htime, hdb, hh, hc, hg, hlt, isCallNotify]
  · by_cases hlt : DateTime.ltb cleanerT guestT <;>
      simp [cleaner_alert, htime, hdb, hh, hc, hg, hlt]
  · by_cases hlt : DateTime.ltb cleanerT guestT <;>
      simp [cleaner_alert, htime, hdb, hh, hc, hg, hlt]

theorem C4_cleaner_alert_decision_witness :
    envW.history = histW1 :: [] ∧
    (get_last_unlocks histW1).cleaner_unlock = some (DateTime.mk (-1) (Time.mk 9 0 0)) ∧
    (get_last_unlocks histW1).guest_unlock = some (DateTime.mk 0 (Time.mk 10 0 0)) ∧
    Time.ltb cfgW.cleaner_check_time envW.now = true ∧
    db_is_today emptyDb "last_cleaner_check" envW.today = false ∧
    (DateTime.ltb (DateTime.mk (-1) (Time.mk 9 0 0)) (DateTime.mk 0 (Time.mk 10 0 0)) = true →
      (cleaner_alert cfgW envW emptyDb).effects =
        [Effect.log "ALERT - Checked for recent cleaning",
          Effect.callNotify "notify/mail_page_amzn" "jrshann@amazon.com"
            (alertTitle cfgW) (alertMessage cfgW),
          Effect.callNotify "notify/mail_page_amzn" "14158897287@msg.fi.google.com"
            (alertTitle cfgW) (alertMessage cfgW)]) ∧
    (cleaner_alert cfgW envW emptyDb).db "last_cleaner_check" = some envW.today ∧
    (cleaner_alert cfgW envW emptyDb).err = none := by
  have h := C4_cleaner_alert_decision cfgW envW emptyDb histW1 []
    (DateTime.mk (-1) (Time.mk 9 0 0)) (DateTime.mk 0 (Time.mk 10 0 0))
    rfl (by decide) (by decide) rfl rfl
  exact ⟨rfl, by decide, by decide, rfl, rfl, h.1, h.2.2.1, h.2.2.2⟩

/-- C6 counterexample: with the cleaner check due and a history containing a
guest unlock but no cleaner match, `cleaner_alert` logs the error and then the
`assert` raises: the poll aborts (an exception is recorded, `hvac_on` never
runs), the guard is not marked, and no best-effort processing follows —
contradicting the claim that processing continues without aborting. -/
theorem C6_counterexample :
    (cleaner_alert cfgW envNoCleanerW emptyDb).err = some PollError.unlockMissing ∧
    (cleaner_alert cfgW envNoCleanerW emptyDb).effects =
      [Effect.logError "Could not determine last unlock times"] ∧
    (cleaner_alert cfgW envNoCleanerW emptyDb).db "last_cleaner_check" = none ∧
    (check_mgmt cfgW envNoCleanerW emptyDb).err = some PollError.unlockMissing ∧
    countEff isCallSetTemperature (check_mgmt cfgW envNoCleanerW emptyDb).effects = 0 := by
  refine ⟨rfl, rfl, rfl, by decide, by decide⟩

/-- C6 as amended: when the history yields no cleaner match or no guest
match, `cleaner_alert` logs the error and then aborts the poll via the
failing assertion, leaving the guard store untouched (so the check is retried
on the next interval) rather than continuing with best-effort values. -/
theorem C6_unlock_missing_aborts (cfg : Config) (env : Env) (db : Db)
    (first : List HistEntry) (rest : List (List HistEntry))
    (hh : env.history = first :: rest)
    (hmiss : (get_last_unlocks first).cleaner_unlock = none ∨
      (get_last_unlocks first).guest_unlock = none)
    (htime : Time.ltb cfg.cleaner_check_time env.now = true)
    (hdb : db_is_today db "last_cleaner_check" env.today = false) :
    cleaner_alert cfg env db =
      { db := db,
        effects := [Effect.logError "Could not determine last unlock times"],
        err := some PollError.unlockMissing } := by
  rcases hcu : (get_last_unlocks first).cleaner_unlock with _ | c <;>
    rcases hgu : (get_last_unlocks first).guest_unlock with _ | g <;>
    simp_all [cleaner_alert, htime, hdb, hh]

theorem C6_unlock_missing_aborts_witness :
    envNoCleanerW.history = histNC1 :: [] ∧
    (get_last_unlocks histNC1).cleaner_unlock = none ∧
    Time.ltb cfgW.cleaner_check_time envNoCleanerW.now = true ∧
    db_is_today emptyDb "last_cleaner_check" envNoCleanerW.today = false ∧
    cleaner_alert cfgW envNoCleanerW emptyDb =
      { db := emptyDb,
        effects := [Effect.logError "Could not determine last unlock times"],
        err := some PollError.unlockMissing } := by
  refine ⟨rfl, by decide, rfl, rfl, ?_⟩
  exact C6_unlock_missing_aborts cfgW envNoCleanerW emptyDb histNC1 []
    rfl (Or.inl (by decide)) rfl rfl

/-- C7: a missing or unparsable calendar state makes the classification read
raise (the spec's StateParseError), the poll aborts right there — its only
effect is the initial log line, no service call fires — and the guard store
is completely unchanged. -/
theorem C7_state_parse_aborts (cfg : Config) (env : Env) (db : Db)
    (h : (isBadRead env.feed.start0 || isBadRead env.feed.end0 ||
      isBadRead env.feed.start1 || isBadRead env.feed.end1) = true) :
    get_rental_events cfg env = .error PollError.stateParse ∧
    check_mgmt cfg env db =
      { db := db, effects := [Effect.log execMsg], err := some PollError.stateParse } := by
  have herr : get_rental_events cfg env = .error PollError.stateParse := by
    rcases h0 : env.feed.start0 with _ | r0 | d0 <;>
      rcases h1 : env.feed.end0 with _ | r1 | d1 <;>
      rcases h2 : env.feed.start1 with _ | r2 | d2 <;>
      rcases h3 : env.feed.end1 with _ | r3 | d3 <;>
      simp_all [get_rental_events, get_state_datetime, isBadRead, Bind.bind, Except.bind]
  exact ⟨herr, check_mgmt_classify_error cfg env db _ herr⟩

theorem C7_state_parse_aborts_witness :
    (isBadRead envBadFeedW.feed.start0 || isBadRead envBadFeedW.feed.end0 ||
      isBadRead envBadFeedW.feed.start1 || isBadRead envBadFeedW.feed.end1) = true ∧
    (get_rental_events cfgW envBadFeedW = .error PollError.stateParse ∧
      check_mgmt cfgW envBadFeedW emptyDb =
        { db := emptyDb, effects := [Effect.log execMsg],
          err := some PollError.stateParse }) :=
  ⟨rfl, C7_state_parse_aborts cfgW envBadFeedW emptyDb rfl⟩

/-- C8: the event classifier is a pure mapping: its result depends only on
the four calendar reads and today's date (any two environments agreeing on
those — whatever their time of day, history or check-in-time state — yield
the same ClassifiedEvents), and on success the rest of the poll receives the
guard store exactly as it was before classification. -/
theorem C8_classifier_pure (cfg : Config) (env1 env2 : Env) (db : Db)
    (hfeed : env1.feed = env2.feed) (htoday : env1.today = env2.today) :
    get_rental_events cfg env1 = get_rental_events cfg env2 ∧
    (∀ re, get_rental_events cfg env1 = .ok re →
      check_mgmt cfg env1 db =
        { db := (check_mgmt_actions cfg env1 re db).db,
          effects := Effect.log execMsg :: (check_mgmt_actions cfg env1 re db).effects,
          err := (check_mgmt_actions cfg env1 re db).err }) := by
  constructor
  · unfold get_rental_events
    rw [hfeed, htoday]
  · intro re h
    unfold check_mgmt
    rw [h]

theorem C8_classifier_pure_witness :
    envW.feed = envW30.feed ∧ envW.today = envW30.today ∧
    get_rental_events cfgW envW = get_rental_events cfgW envW30 ∧
    check_mgmt cfgW envW emptyDb =
      { db := (check_mgmt_actions cfgW envW
          (RentalEventInfo.mk (some (eventName "c1" 1)) (some (eventName "c1" 0))
            (some (eventName "c1" 1))) emptyDb).db,
        effects := Effect.log execMsg :: (check_mgmt_actions cfgW envW
          (RentalEventInfo.mk (some (eventName "c1" 1)) (some (eventName "c1" 0))
            (some (eventName "c1" 1))) emptyDb).effects,
        err := (check_mgmt_actions cfgW envW
          (RentalEventInfo.mk (some (eventName "c1" 1)) (some (eventName "c1" 0))
            (some (eventName "c1" 1))) emptyDb).err } := by
  have h := C8_classifier_pure cfgW envW envW30 emptyDb rfl rfl
  exact ⟨rfl, rfl, h.1, h.2 _ (by rfl)⟩

theorem reset_skip (cfg : Config) (env : Env) (db : Db)
    (h : db "last_checkin_reset" = some env.today) :
    reset_checkin_time cfg env db = (db, []) := by
  simp [reset_checkin_time, db_is_today, h]

theorem reset_db_other (cfg : Config) (env : Env) (db : Db) (k : String)
    (hk : k ≠ "last_checkin_reset") :
    (reset_checkin_time cfg env db).1 k = db k := by
  unfold reset_checkin_time
  split
  · rfl
  · simp [hk]

theorem reset_count_zero (cfg : Config) (env : Env) (db : Db) (p : Effect → Bool)
    (h1 : ∀ m, p (Effect.log m) = false)
    (h2 : ∀ v ent, p (Effect.callSetDatetime v ent) = false) :
    countEff p (reset_checkin_time cfg env db).2 = 0 := by
  unfold reset_checkin_time
  split <;> simp [h1, h2]

theorem reset_own_le (cfg : Config) (env : Env) (db : Db) :
    countEff isCallSetDatetime (reset_checkin_time cfg env db).2 ≤ 1 := by
  unfold reset_checkin_time
  split <;> simp [isCallSetDatetime]

theorem reset_fired (cfg : Config) (env : Env) (db : Db)
    (h : countEff isCallSetDatetime (reset_checkin_time cfg env db).2 ≠ 0) :
    (reset_checkin_time cfg env db).1 "last_checkin_reset" = some env.today := by
  revert h
  unfold reset_checkin_time
  split <;> intro h
  · simp at h
  · simp

theorem off_skip (cfg : Config) (env : Env) (db : Db)
    (h : db "last_hvac_off" = some env.today) :
    hvac_off cfg env db = (db, []) := by
  simp [hvac_off, db_is_today, h]

theorem off_db_other (cfg : Config) (env : Env) (db : Db) (k : String)
    (hk : k ≠ "last_hvac_off") :
    (hvac_off cfg env db).1 k = db k := by
  unfold hvac_off
  split
  · simp [hk]
  · rfl

theorem off_count_zero (cfg : Config) (env : Env) (db : Db) (p : Effect → Bool)
    (h1 : ∀ m, p (Effect.log m) = false)
    (h2 : ∀ ent, p (Effect.callClimateOff ent) = false) :
    countEff p (hvac_off cfg env db).2 = 0 := by
  unfold hvac_off
  split <;> simp [h1, h2]

theorem off_own_le (cfg : Config) (env : Env) (db : Db) :
    countEff isCallClimateOff (hvac_off cfg env db).2 ≤ 1 := by
  unfold hvac_off
  split <;> simp [isCallClimateOff]

theorem off_fired (cfg : Config) (env : Env) (db : Db)
    (h : countEff isCallClimateOff (hvac_off cfg env db).2 ≠ 0) :
    (hvac_off cfg env db).1 "last_hvac_off" = some env.today := by
  revert h
  unfold hvac_off
  split <;> intro h
  · simp
  · simp at h

theorem ca_skip (cfg : Config) (env : Env) (db : Db)
    (h : db "last_cleaner_check" = some env.today) :
    cleaner_alert cfg env db = { db := db, effects := [], err := none } := by
  simp [cleaner_alert, db_is_today, h]

theorem ca_cases (cfg : Config) (env : Env) (db : Db) :
    (cleaner_alert cfg env db).effects = [] ∧ (cleaner_alert cfg env db).db = db ∨
    (cleaner_alert cfg env db).effects =
        [Effect.logError "Could not determine last unlock times"] ∧
      (cleaner_alert cfg env db).db = db ∨
    ((cleaner_alert cfg env db).effects =
        [Effect.log "ALERT - Checked for recent cleaning",
          Effect.callNotify "notify/mail_page_amzn" "jrshann@amazon.com"
            (alertTitle cfg) (alertMessage cfg),
          Effect.callNotify "notify/mail_page_amzn" "14158897287@msg.fi.google.com"
            (alertTitle cfg) (alertMessage cfg)] ∨
        (cleaner_alert cfg env db).effects = [Effect.log "OK - Checked for recent cleaning"]) ∧
      (cleaner_alert cfg env db).db = db_set_today db "last_cleaner_check" env.today := by
  by_cases hcond : (Time.ltb cfg.cleaner_check_time env.now
      && !(db_is_today db "last_cleaner_check" env.today)) = true
  case neg =>
    left
    unfold cleaner_alert
    rw [if_neg hcond]
    exact ⟨rfl, rfl⟩
  case pos =>
    cases hh : env.history with
    | nil =>
      left
      unfold cleaner_alert
      rw [if_pos hcond, hh]
      exact ⟨rfl, rfl⟩
    | cons first rest =>
      rcases hcu : (get_last_unlocks first).cleaner_unlock with _ | c
      · right; left
        constructor <;> simp [cleaner_alert, hcond, hh, hcu]
      · rcases hgu : (get_last_unlocks first).guest_unlock with _ | g
        · right; left
          constructor <;> simp [cleaner_alert, hcond, hh, hcu, hgu]
        · right; right
          by_cases hlt : DateTime.ltb c g = true
          · exact ⟨Or.inl (by simp [cleaner_alert, hcond, hh, hcu, hgu, hlt]),
              by simp [cleaner_alert, hcond, hh, hcu, hgu, hlt]⟩
          · exact ⟨Or.inr (by simp [cleaner_alert, hcond, hh, hcu, hgu, hlt]),
              by simp [cleaner_alert, hcond, hh, hcu, hgu, hlt]⟩

theorem ca_db_other (cfg : Config) (env : Env) (db : Db) (k : String)
    (hk : k ≠ "last_cleaner_check") :
    (cleaner_alert cfg env db).db k = db k := by
  rcases ca_cases cfg env db with ⟨_, hdb⟩ | ⟨_, hdb⟩ | ⟨_, hdb⟩ <;>
    simp [hdb, hk]

theorem ca_count_zero (cfg : Config) (env : Env) (db : Db) (p : Effect → Bool)
    (h1 : ∀ m, p (Effect.log m) = false)
    (h2 : ∀ m, p (Effect.logError m) = false)
    (h3 : ∀ s t ttl m, p (Effect.callNotify s t ttl m) = false) :
    countEff p (cleaner_alert cfg env db).effects = 0 := by
  rcases ca_cases cfg env db with ⟨he, _⟩ | ⟨he, _⟩ | ⟨he | he, _⟩ <;>
    simp [he, h1, h2, h3]

theorem ca_notify_le (cfg : Config) (env : Env) (db : Db) :
    countEff isCallNotify (cleaner_alert cfg env db).effects ≤ 2 := by
  rcases ca_cases cfg env db with ⟨he, _⟩ | ⟨he, _⟩ | ⟨he | he, _⟩ <;>
    simp [he, isCallNotify]

theorem ca_fired (cfg : Config) (env : Env) (db : Db)
    (h : countEff isCallNotify (cleaner_alert cfg env db).effects ≠ 0) :
    (cleaner_alert cfg env db).db "last_cleaner_check" = some env.today := by
  rcases ca_cases cfg env db with ⟨he, hdb⟩ | ⟨he, hdb⟩ | ⟨he | he, hdb⟩ <;>
    simp [he, hdb, isCallNotify] at h ⊢

theorem ho_skip (cfg : Config) (env : Env) (db : Db)
    (h : db "last_hvac_on" = some env.today) :
    (hvac_on cfg env db).db = db ∧ (hvac_on cfg env db).effects = [] := by
  unfold hvac_on
  split
  · exact ⟨rfl, rfl⟩
  · simp [db_is_today, h]

theorem ho_db_other (cfg : Config) (env : Env) (db : Db) (k : String)
    (hk : k ≠ "last_hvac_on") :
    (hvac_on cfg env db).db k = db k := by
  unfold hvac_on
  repeat' split
  all_goals simp [hk]

theorem ho_count_zero (cfg : Config) (env : Env) (db : Db) (p : Effect → Bool)
    (h1 : ∀ m, p (Effect.log m) = false)
    (h2 : ∀ ent mo temp, p (Effect.callSetTemperature ent mo temp) = false) :
    countEff p (hvac_on cfg env db).effects = 0 := by
  unfold hvac_on
  repeat' split
  all_goals simp [h1, h2]

theorem ho_own_le (cfg : Config) (env : Env) (db : Db) :
    countEff isCallSetTemperature (hvac_on cfg env db).effects ≤ 1 := by
  unfold hvac_on
  repeat' split
  all_goals simp [isCallSetTemperature]

theorem ho_fired (cfg : Config) (env : Env) (db : Db)
    (h : countEff isCallSetTemperature (hvac_on cfg env db).effects ≠ 0) :
    (hvac_on cfg env db).db "last_hvac_on" = some env.today := by
  revert h
  unfold hvac_on
  repeat' split
  all_goals intro h
  all_goals simp_all [isCallSetTemperature]

theorem cia_err_some (cfg : Config) (env : Env) (db : Db) (e : PollError)
    (h : (cleaner_alert cfg env db).err = some e) :
    checkin_actions cfg env db =
      { db := (cleaner_alert cfg env db).db,
        effects := (cleaner_alert cfg env db).effects, err := some e } := by
  simp only [checkin_actions, h]

theorem cia_err_none (cfg : Config) (env : Env) (db : Db)
    (h : (cleaner_alert cfg env db).err = none) :
    checkin_actions cfg env db =
      { db := (hvac_on cfg env (cleaner_alert cfg env db).db).db,
        effects := (cleaner_alert cfg env db).effects
          ++ (hvac_on cfg env (cleaner_alert cfg env db).db).effects,
        err := (hvac_on cfg env (cleaner_alert cfg env db).db).err } := by
  simp only [checkin_actions, h]

theorem cia_db_other (cfg : Config) (env : Env) (db : Db) (k : String)
    (h1 : k ≠ "last_cleaner_check") (h2 : k ≠ "last_hvac_on") :
    (checkin_actions cfg env db).db k = db k := by
  cases hce : (cleaner_alert cfg env db).err with
  | some e =>
    rw [cia_err_some cfg env db e hce]
    exact ca_db_other cfg env db k h1
  | none =>
    rw [cia_err_none cfg env db hce]
    show (hvac_on cfg env (cleaner_alert cfg env db).db).db k = db k
    rw [ho_db_other cfg env _ k h2, ca_db_other cfg env db k h1]

theorem cia_count_zero (cfg : Config) (env : Env) (db : Db) (p : Effect → Bool)
    (hlog : ∀ m, p (Effect.log m) = false)
    (hlogE : ∀ m, p (Effect.logError m) = false)
    (hnot : ∀ s t ttl m, p (Effect.callNotify s t ttl m) = false)
    (htemp : ∀ ent mo temp, p (Effect.callSetTemperature ent mo temp) = false) :
    countEff p (checkin_actions cfg env db).effects = 0 := by
  cases hce : (cleaner_alert cfg env db).err with
  | some e =>
    rw [cia_err_some cfg env db e hce]
    exact ca_count_zero cfg env db p hlog hlogE hnot
  | none =>
    rw [cia_err_none cfg env db hce]
    show countEff p ((cleaner_alert cfg env db).effects
      ++ (hvac_on cfg env (cleaner_alert cfg env db).db).effects) = 0
    rw [countEff_append, ca_count_zero cfg env db p hlog hlogE hnot,
      ho_count_zero cfg env _ p hlog htemp]

theorem cia_notify_le (cfg : Config) (env : Env) (db : Db) :
    countEff isCallNotify (checkin_actions cfg env db).effects ≤ 2 := by
  cases hce : (cleaner_alert cfg env db).err with
  | some e =>
    rw [cia_err_some cfg env db e hce]
    exact ca_notify_le cfg env db
  | none =>
    rw [cia_err_none cfg env db hce]
    show countEff isCallNotify ((cleaner_alert cfg env db).effects
      ++ (hvac_on cfg env (cleaner_alert cfg env db).db).effects) ≤ 2
    rw [countEff_append,
      ho_count_zero cfg env _ isCallNotify (fun _ => rfl) (fun _ _ _ => rfl)]
    simpa using ca_notify_le cfg env db

theorem cia_notify_fired (cfg : Config) (env : Env) (db : Db)
    (h : countEff isCallNotify (checkin_actions cfg env db).effects ≠ 0) :
    (checkin_actions cfg env db).db "last_cleaner_check" = some env.today := by
  cases hce : (cleaner_alert cfg env db).err with
  | some e =>
    rw [cia_err_some cfg env db e hce] at h ⊢
    exact ca_fired cfg env db h
  | none =>
    rw [cia_err_none cfg env db hce] at h ⊢
    show (hvac_on cfg env (cleaner_alert cfg env db).db).db "last_cleaner_check"
      = some env.today
    rw [ho_db_other cfg env _ _ (by decide)]
    refine ca_fired cfg env db ?_
    intro hz
    apply h
    show countEff isCallNotify ((cleaner_alert cfg env db).effects
      ++ (hvac_on cfg env (cleaner_alert cfg env db).db).effects) = 0
    rw [countEff_append, hz,
      ho_count_zero cfg env _ isCallNotify (fun _ => rfl) (fun _ _ _ => rfl)]

theorem cia_settemp_le (cfg : Config) (env : Env) (db : Db) :
    countEff isCallSetTemperature (checkin_actions cfg env db).effects ≤ 1 := by
  cases hce : (cleaner_alert cfg env db).err with
  | some e =>
    rw [cia_err_some cfg env db e hce]
    simp [ca_count_zero cfg env db isCallSetTemperature
      (fun _ => rfl) (fun _ => rfl) (fun _ _ _ _ => rfl)]
  | none =>
    rw [cia_err_none cfg env db hce]
    show countEff isCallSetTemperature ((cleaner_alert cfg env db).effects
      ++ (hvac_on cfg env (cleaner_alert cfg env db).db).effects) ≤ 1
    rw [countEff_append, ca_count_zero cfg env db isCallSetTemperature
      (fun _ => rfl) (fun _ => rfl) (fun _ _ _ _ => rfl)]
    simpa using ho_own_le cfg env (cleaner_alert cfg env db).db

theorem cia_settemp_fired (cfg : Config) (env : Env) (db : Db)
    (h : countEff isCallSetTemperature (checkin_actions cfg env db).effects ≠ 0) :
    (checkin_actions cfg env db).db "last_hvac_on" = some env.today := by
  cases hce : (cleaner_alert cfg env db).err with
  | some e =>
    rw [cia_err_some cfg env db e hce] at h ⊢
    exact absurd (ca_count_zero cfg env db isCallSetTemperature
      (fun _ => rfl) (fun _ => rfl) (fun _ _ _ _ => rfl)) h
  | none =>
    rw [cia_err_none cfg env db hce] at h ⊢
    show (hvac_on cfg env (cleaner_alert cfg env db).db).db "last_hvac_on"
      = some env.today
    refine ho_fired cfg env _ ?_
    intro hz
    apply h
    show countEff isCallSetTemperature ((cleaner_alert cfg env db).effects
      ++ (hvac_on cfg env (cleaner_alert cfg env db).db).effects) = 0
    rw [countEff_append, hz, ca_count_zero cfg env db isCallSetTemperature
      (fun _ => rfl) (fun _ => rfl) (fun _ _ _ _ => rfl)]

theorem cia_cleaner_skip (cfg : Config) (env : Env) (db : Db)
    (h : db "last_cleaner_check" = some env.today) :
    countEff isCallNotify (checkin_actions cfg env db).effects = 0 ∧
    (checkin_actions cfg env db).db "last_cleaner_check" = some env.today := by
  have hca := ca_skip cfg env db h
  have hce : (cleaner_alert cfg env db).err = none := by rw [hca]
  rw [cia_err_none cfg env db hce, hca]
  constructor
  · show countEff isCallNotify ([] ++ (hvac_on cfg env db).effects) = 0
    rw [List.nil_append,
      ho_count_zero cfg env db isCallNotify (fun _ => rfl) (fun _ _ _ => rfl)]
  · show (hvac_on cfg env db).db "last_cleaner_check" = some env.today
    rw [ho_db_other cfg env db _ (by decide)]
    exact h

theorem cia_hvacon_skip (cfg : Config) (env : Env) (db : Db)
    (h : db "last_hvac_on" = some env.today) :
    countEff isCallSetTemperature (checkin_actions cfg env db).effects = 0 ∧
    (checkin_actions cfg env db).db "last_hvac_on" = some env.today := by
  cases hce : (cleaner_alert cfg env db).err with
  | some e =>
    rw [cia_err_some cfg env db e hce]
    refine ⟨ca_count_zero cfg env db isCallSetTemperature
      (fun _ => rfl) (fun _ => rfl) (fun _ _ _ _ => rfl), ?_⟩
    rw [ca_db_other cfg env db _ (by decide)]
    exact h
  | none =>
    rw [cia_err_none cfg env db hce]
    have hkey : (cleaner_alert cfg env db).db "last_hvac_on" = some env.today := by
      rw [ca_db_other cfg env db _ (by decide)]
      exact h
    obtain ⟨hdb, heff⟩ := ho_skip cfg env _ hkey
    constructor
    · show countEff isCallSetTemperature ((cleaner_alert cfg env db).effects
        ++ (hvac_on cfg env (cleaner_alert cfg env db).db).effects) = 0
      rw [countEff_append, heff, ca_count_zero cfg env db isCallSetTemperature
        (fun _ => rfl) (fun _ => rfl) (fun _ _ _ _ => rfl)]
      simp
    · show (hvac_on cfg env (cleaner_alert cfg env db).db).db "last_hvac_on"
        = some env.today
      rw [hdb]
      exact hkey

theorem stage_off_db_other (cfg : Config) (env : Env) (co : Bool) (db : Db)
    (k : String) (hk : k ≠ "last_hvac_off") :
    (stage_off cfg env co db).1 k = db k := by
  unfold stage_off
  split
  · exact off_db_other cfg env db k hk
  · rfl

theorem stage_off_count_zero (cfg : Config) (env : Env) (co : Bool) (db : Db)
    (p : Effect → Bool)
    (h1 : ∀ m, p (Effect.log m) = false)
    (h2 : ∀ ent, p (Effect.callClimateOff ent) = false) :
    countEff p (stage_off cfg env co db).2 = 0 := by
  unfold stage_off
  split
  · exact off_count_zero cfg env db p h1 h2
  · rfl

theorem stage_off_own_le (cfg : Config) (env : Env) (co : Bool) (db : Db) :
    countEff isCallClimateOff (stage_off cfg env co db).2 ≤ 1 := by
  unfold stage_off
  split
  · exact off_own_le cfg env db
  · simp

theorem stage_off_fired (cfg : Config) (env : Env) (co : Bool) (db : Db)
    (h : countEff isCallClimateOff (stage_off cfg env co db).2 ≠ 0) :
    (stage_off cfg env co db).1 "last_hvac_off" = some env.today := by
  revert h
  unfold stage_off
  split <;> intro h
  · exact off_fired cfg env db h
  · simp at h

theorem stage_off_skip (cfg : Config) (env : Env) (co : Bool) (db : Db)
    (h : db "last_hvac_off" = some env.today) :
    countEff isCallClimateOff (stage_off cfg env co db).2 = 0 ∧
    (stage_off cfg env co db).1 "last_hvac_off" = some env.today := by
  unfold stage_off
  split
  · rw [off_skip cfg env db h]
    exact ⟨rfl, h⟩
  · exact ⟨rfl, h⟩

theorem stage_ci_db_other (cfg : Config) (env : Env) (ci : Bool) (db : Db)
    (k : String) (h1 : k ≠ "last_cleaner_check") (h2 : k ≠ "last_hvac_on") :
    (stage_ci cfg env ci db).db k = db k := by
  unfold stage_ci
  split
  · exact cia_db_other cfg env db k h1 h2
  · rfl

theorem stage_ci_count_zero (cfg : Config) (env : Env) (ci : Bool) (db : Db)
    (p : Effect → Bool)
    (hlog : ∀ m, p (Effect.log m) = false)
    (hlogE : ∀ m, p (Effect.logError m) = false)
    (hnot : ∀ s t ttl m, p (Effect.callNotify s t ttl m) = false)
    (htemp : ∀ ent mo temp, p (Effect.callSetTemperature ent mo temp) = false) :
    countEff p (stage_ci cfg env ci db).effects = 0 := by
  unfold stage_ci
  split
  · exact cia_count_zero cfg env db p hlog hlogE hnot htemp
  · rfl

theorem stage_ci_notify_le (cfg : Config) (env : Env) (ci : Bool) (db : Db) :
    countEff isCallNotify (stage_ci cfg env ci db).effects ≤ 2 := by
  unfold stage_ci
  split
  · exact cia_notify_le cfg env db
  · simp

theorem stage_ci_notify_fired (cfg : Config) (env : Env) (ci : Bool) (db : Db)
    (h : countEff isCallNotify (stage_ci cfg env ci db).effects ≠ 0) :
    (stage_ci cfg env ci db).db "last_cleaner_check" = some env.today := by
  revert h
  unfold stage_ci
  split <;> intro h
  · exact cia_notify_fired cfg env db h
  · simp at h

theorem stage_ci_settemp_le (cfg : Config) (env : Env) (ci : Bool) (db : Db) :
    countEff isCallSetTemperature (stage_ci cfg env ci db).effects ≤ 1 := by
  unfold stage_ci
  split
  · exact cia_settemp_le cfg env db
  · simp

theorem stage_ci_settemp_fired (cfg : Config) (env : Env) (ci : Bool) (db : Db)
    (h : countEff isCallSetTemperature (stage_ci cfg env ci db).effects ≠ 0) :
    (stage_ci cfg env ci db).db "last_hvac_on" = some env.today := by
  revert h
  unfold stage_ci
  split <;> intro h
  · exact cia_settemp_fired cfg env db h
  · simp at h

theorem stage_ci_cleaner_skip (cfg : Config) (env : Env) (ci : Bool) (db : Db)
    (h : db "last_cleaner_check" = some env.today) :
    countEff isCallNotify (stage_ci cfg env ci db).effects = 0 ∧
    (stage_ci cfg env ci db).db "last_cleaner_check" = some env.today := by
  unfold stage_ci
  split
  · exact cia_cleaner_skip cfg env db h
  · exact ⟨rfl, h⟩

theorem stage_ci_hvacon_skip (cfg : Config) (env : Env) (ci : Bool) (db : Db)
    (h : db "last_hvac_on" = some env.today) :
    countEff isCallSetTemperature (stage_ci cfg env ci db).effects = 0 ∧
    (stage_ci cfg env ci db).db "last_hvac_on" = some env.today := by
  unfold stage_ci
  split
  · exact cia_hvacon_skip cfg env db h
  · exact ⟨rfl, h⟩

theorem check_mgmt_classify_ok (cfg : Config) (env : Env) (db : Db)
    (re : RentalEventInfo) (h : get_rental_events cfg env = .ok re) :
    check_mgmt cfg env db =
      { db := (check_mgmt_actions cfg env re db).db,
        effects := Effect.log execMsg :: (check_mgmt_actions cfg env re db).effects,
        err := (check_mgmt_actions cfg env re db).err } := by
  unfold check_mgmt
  rw [h]

theorem cma_reset_acc (cfg : Config) (env : Env) (re : RentalEventInfo) (db : Db) :
    (db "last_checkin_reset" = some env.today →
      countEff isCallSetDatetime (check_mgmt_actions cfg env re db).effects = 0 ∧
      (check_mgmt_actions cfg env re db).db "last_checkin_reset" = some env.today) ∧
    countEff isCallSetDatetime (check_mgmt_actions cfg env re db).effects ≤ 1 ∧
    (countEff isCallSetDatetime (check_mgmt_actions cfg env re db).effects ≠ 0 →
      (check_mgmt_actions cfg env re db).db "last_checkin_reset" = some env.today) := by
  have hB0 : ∀ d : Db, countEff isCallSetDatetime
      (stage_off cfg env re.checkout_today_evt.isSome d).2 = 0 :=
    fun d => stage_off_count_zero cfg env _ d _ (fun _ => rfl) (fun _ => rfl)
  have hC0 : ∀ d : Db, countEff isCallSetDatetime
      (stage_ci cfg env re.checkin_today_evt.isSome d).effects = 0 :=
    fun d => stage_ci_count_zero cfg env _ d _ (fun _ => rfl) (fun _ => rfl)
      (fun _ _ _ _ => rfl) (fun _ _ _ => rfl)
  have hpres : ∀ d : Db,
      (stage_ci cfg env re.checkin_today_evt.isSome
        (stage_off cfg env re.checkout_today_evt.isSome d).1).db "last_checkin_reset"
      = d "last_checkin_reset" := fun d => by
    rw [stage_ci_db_other cfg env _ _ _ (by decide) (by decide),
      stage_off_db_other cfg env _ d _ (by decide)]
  simp only [check_mgmt_actions, countEff_append]
  refine ⟨fun h => ?_, ?_, fun hne => ?_⟩
  · rw [reset_skip cfg env db h]
    exact ⟨by simp [hB0, hC0], by rw [hpres]; exact h⟩
  · rw [hB0, hC0]
    simpa using reset_own_le cfg env db
  · rw [hpres]
    refine reset_fired cfg env db ?_
    intro hz
    exact hne (by rw [hz, hB0, hC0])

theorem cma_off_acc (cfg : Config) (env : Env) (re : RentalEventInfo) (db : Db) :
    (db "last_hvac_off" = some env.today →
      countEff isCallClimateOff (check_mgmt_actions cfg env re db).effects = 0 ∧
      (check_mgmt_actions cfg env re db).db "last_hvac_off" = some env.today) ∧
    countEff isCallClimateOff (check_mgmt_actions cfg env re db).effects ≤ 1 ∧
    (countEff isCallClimateOff (check_mgmt_actions cfg env re db).effects ≠ 0 →
      (check_mgmt_actions cfg env re db).db "last_hvac_off" = some env.today) := by
  have hA0 : countEff isCallClimateOff (reset_checkin_time cfg env db).2 = 0 :=
    reset_count_zero cfg env db _ (fun _ => rfl) (fun _ _ => rfl)
  have hC0 : ∀ d : Db, countEff isCallClimateOff
      (stage_ci cfg env re.checkin_today_evt.isSome d).effects = 0 :=
    fun d => stage_ci_count_zero cfg env _ d _ (fun _ => rfl) (fun _ => rfl)
      (fun _ _ _ _ => rfl) (fun _ _ _ => rfl)
  have hApres : (reset_checkin_time cfg env db).1 "last_hvac_off" = db "last_hvac_off" :=
    reset_db_other cfg env db _ (by decide)
  have hCpres : ∀ d : Db,
      (stage_ci cfg env re.checkin_today_evt.isSome d).db "last_hvac_off"
      = d "last_hvac_off" :=
    fun d => stage_ci_db_other cfg env _ d _ (by decide) (by decide)
  simp only [check_mgmt_actions, countEff_append]
  refine ⟨fun h => ?_, ?_, fun hne => ?_⟩
  · obtain ⟨hb0, hbm⟩ := stage_off_skip cfg env re.checkout_today_evt.isSome
      (reset_checkin_time cfg env db).1 (by rw [hApres]; exact h)
    exact ⟨by rw [hA0, hb0, hC0], by rw [hCpres]; exact hbm⟩
  · rw [hA0, hC0]
    simpa using stage_off_own_le cfg env re.checkout_today_evt.isSome
      (reset_checkin_time cfg env db).1
  · rw [hCpres]
    refine stage_off_fired cfg env _ _ ?_
    intro hz
    exact hne (by rw [hA0, hz, hC0])

theorem cma_cleaner_acc (cfg : Config) (env : Env) (re : RentalEventInfo) (db : Db) :
    (db "last_cleaner_check" = some env.today →
      countEff isCallNotify (check_mgmt_actions cfg env re db).effects = 0 ∧
      (check_mgmt_actions cfg env re db).db "last_cleaner_check" = some env.today) ∧
    countEff isCallNotify (check_mgmt_actions cfg env re db).effects ≤ 2 ∧
    (countEff isCallNotify (check_mgmt_actions cfg env re db).effects ≠ 0 →
      (check_mgmt_actions cfg env re db).db "last_cleaner_check" = some env.today) := by
  have hA0 : countEff isCallNotify (reset_checkin_time cfg env db).2 = 0 :=
    reset_count_zero cfg env db _ (fun _ => rfl) (fun _ _ => rfl)
  have hB0 : ∀ d : Db, countEff isCallNotify
      (stage_off cfg env re.checkout_today_evt.isSome d).2 = 0 :=
    fun d => stage_off_count_zero cfg env _ d _ (fun _ => rfl) (fun _ => rfl)
  have hABpres : (stage_off cfg env re.checkout_today_evt.isSome
      (reset_checkin_time cfg env db).1).1 "last_cleaner_check"
      = db "last_cleaner_check" := by
    rw [stage_off_db_other cfg env _ _ _ (by decide),
      reset_db_other cfg env db _ (by decide)]
  simp only [check_mgmt_actions, countEff_append]
  refine ⟨fun h => ?_, ?_, fun hne => ?_⟩
  · obtain ⟨hc0, hcm⟩ := stage_ci_cleaner_skip cfg env re.checkin_today_evt.isSome
      ((stage_off cfg env re.checkout_today_evt.isSome
        (reset_checkin_time cfg env db).1).1) (by rw [hABpres]; exact h)
    exact ⟨by rw [hA0, hB0, hc0], hcm⟩
  · rw [hA0, hB0]
    simpa using stage_ci_notify_le cfg env re.checkin_today_evt.isSome _
  · refine stage_ci_notify_fired cfg env _ _ ?_
    intro hz
    exact hne (by rw [hA0, hB0, hz])

theorem cma_on_acc (cfg : Config) (env : Env) (re : RentalEventInfo) (db : Db) :
    (db "last_hvac_on" = some env.today →
      countEff isCallSetTemperature (check_mgmt_actions cfg env re db).effects = 0 ∧
      (check_mgmt_actions cfg env re db).db "last_hvac_on" = some env.today) ∧
    countEff isCallSetTemperature (check_mgmt_actions cfg env re db).effects ≤ 1 ∧
    (countEff isCallSetTemperature (check_mgmt_actions cfg env re db).effects ≠ 0 →
      (check_mgmt_actions cfg env re db).db "last_hvac_on" = some env.today) := by
  have hA0 : countEff isCallSetTemperature (reset_checkin_time cfg env db).2 = 0 :=
    reset_count_zero cfg env db _ (fun _ => rfl) (fun _ _ => rfl)
  have hB0 : ∀ d : Db, countEff isCallSetTemperature
      (stage_off cfg env re.checkout_today_evt.isSome d).2 = 0 :=
    fun d => stage_off_count_zero cfg env _ d _ (fun _ => rfl) (fun _ => rfl)
  have hABpres : (stage_off cfg env re.checkout_today_evt.isSome
      (reset_checkin_time cfg env db).1).1 "last_hvac_on"
      = db "last_hvac_on" := by
    rw [stage_off_db_other cfg env _ _ _ (by decide),
      reset_db_other cfg env db _ (by decide)]
  simp only [check_mgmt_actions, countEff_append]
  refine ⟨fun h => ?_, ?_, fun hne => ?_⟩
  · obtain ⟨hc0, hcm⟩ := stage_ci_hvacon_skip cfg env re.checkin_today_evt.isSome
      ((stage_off cfg env re.checkout_today_evt.isSome
        (reset_checkin_time cfg env db).1).1) (by rw [hABpres]; exact h)
    exact ⟨by rw [hA0, hB0, hc0], hcm⟩
  · rw [hA0, hB0]
    simpa using stage_ci_settemp_le cfg env re.checkin_today_evt.isSome _
  · refine stage_ci_settemp_fired cfg env _ _ ?_
    intro hz
    exact hne (by rw [hA0, hB0, hz])

theorem cm_lift (cfg : Config) (env : Env) (db : Db) (p : Effect → Bool)
    (key : String) (m : Nat)
    (hp : ∀ msg, p (Effect.log msg) = false)
    (H : ∀ re : RentalEventInfo,
      (db key = some env.today →
        countEff p (check_mgmt_actions cfg env re db).effects = 0 ∧
        (check_mgmt_actions cfg env re db).db key = some env.today) ∧
      countEff p (check_mgmt_actions cfg env re db).effects ≤ m ∧
      (countEff p (check_mgmt_actions cfg env re db).effects ≠ 0 →
        (check_mgmt_actions cfg env re db).db key = some env.today)) :
    (db key = some env.today →
      countEff p (check_mgmt cfg env db).effects = 0 ∧
      (check_mgmt cfg env db).db key = some env.today) ∧
    countEff p (check_mgmt cfg env db).effects ≤ m ∧
    (countEff p (check_mgmt cfg env db).effects ≠ 0 →
      (check_mgmt cfg env db).db key = some env.today) := by
  cases hre : get_rental_events cfg env with
  | error e =>
    rw [check_mgmt_classify_error cfg env db e hre]
    exact ⟨fun h => ⟨by simp [hp], h⟩, by simp [hp], fun hne => absurd (by simp [hp]) hne⟩
  | ok re =>
    rw [check_mgmt_classify_ok cfg env db re hre]
    obtain ⟨H1, H2, H3⟩ := H re
    refine ⟨fun h => ?_, ?_, fun hne => ?_⟩
    · obtain ⟨hc, hd⟩ := H1 h
      exact ⟨by simp [hp, hc], hd⟩
    · simpa [hp] using H2
    · refine H3 ?_
      intro hz
      exact hne (by simp [hp, hz])

theorem polls_marked_zero (cfg : Config) (d : Date) (p : Effect → Bool) (key : String)
    (H1 : ∀ env db, env.today = d → db key = some d →
      countEff p (check_mgmt cfg env db).effects = 0 ∧
      (check_mgmt cfg env db).db key = some d) :
    ∀ (envs : List Env) (db : Db), (∀ env ∈ envs, env.today = d) →
      db key = some d → countEff p (run_polls cfg envs db).2 = 0 := by
  intro envs
  induction envs with
  | nil => intro db _ _; simp [run_polls]
  | cons env rest ih =>
    intro db hd hdb
    have henv : env.today = d := hd env (List.mem_cons_self env rest)
    obtain ⟨hc, hm⟩ := H1 env db henv hdb
    have hrest := ih (check_mgmt cfg env db).db
      (fun e he => hd e (List.mem_cons_of_mem _ he)) hm
    simp [run_polls, hc, hrest]

theorem polls_at_most (cfg : Config) (d : Date) (p : Effect → Bool) (key : String)
    (m : Nat)
    (H1 : ∀ env db, env.today = d → db key = some d →
      countEff p (check_mgmt cfg env db).effects = 0 ∧
      (check_mgmt cfg env db).db key = some d)
    (H2 : ∀ env db, env.today = d →
      countEff p (check_mgmt cfg env db).effects ≤ m ∧
      (countEff p (check_mgmt cfg env db).effects ≠ 0 →
        (check_mgmt cfg env db).db key = some d)) :
    ∀ (envs : List Env) (db : Db), (∀ env ∈ envs, env.today = d) →
      countEff p (run_polls cfg envs db).2 ≤ m := by
  intro envs
  induction envs with
  | nil => intro db _; simp [run_polls]
  | cons env rest ih =>
    intro db hd
    have henv : env.today = d := hd env (List.mem_cons_self env rest)
    obtain ⟨hle, hfired⟩ := H2 env db henv
    by_cases hz : countEff p (check_mgmt cfg env db).effects = 0
    · have hrest := ih (check_mgmt cfg env db).db
        (fun e he => hd e (List.mem_cons_of_mem _ he))
      simp only [run_polls, countEff_append, hz, Nat.zero_add]
      exact hrest
    · have hmk := hfired hz
      have hzero := polls_marked_zero cfg d p key H1 rest (check_mgmt cfg env db).db
        (fun e he => hd e (List.mem_cons_of_mem _ he)) hmk
      simp only [run_polls, countEff_append, hzero, Nat.add_zero]
      exact hle

/-- C2: across any number of polls of the control sequence within a single
calendar day, each guarded action's external side effect fires at most once:
at most one check-in-time reset call, at most one climate turn-off, the
cleaner alert (its pair of notifications) at most once, and at most one
climate pre-cool command — whatever the guard store initially contained. -/
theorem C2_at_most_once_per_day (cfg : Config) (envs : List Env) (db : Db) (d : Date)
    (hd : ∀ env ∈ envs, env.today = d) :
    countEff isCallSetDatetime (run_polls cfg envs db).2 ≤ 1 ∧
    countEff isCallClimateOff (run_polls cfg envs db).2 ≤ 1 ∧
    countEff isCallNotify (run_polls cfg envs db).2 ≤ 2 ∧
    countEff isCallSetTemperature (run_polls cfg envs db).2 ≤ 1 := by
  refine ⟨?_, ?_, ?_, ?_⟩
  · refine polls_at_most cfg d isCallSetDatetime "last_checkin_reset" 1 ?_ ?_ envs db hd
    · intro env db2 henv hdb2
      have h := (cm_lift cfg env db2 isCallSetDatetime "last_checkin_reset" 1
        (fun _ => rfl) (fun re => cma_reset_acc cfg env re db2)).1
      rw [henv] at h
      exact h hdb2
    · intro env db2 henv
      have h := cm_lift cfg env db2 isCallSetDatetime "last_checkin_reset" 1
        (fun _ => rfl) (fun re => cma_reset_acc cfg env re db2)
      rw [henv] at h
      exact ⟨h.2.1, h.2.2⟩
  · refine polls_at_most cfg d isCallClimateOff "last_hvac_off" 1 ?_ ?_ envs db hd
    · intro env db2 henv hdb2
      have h := (cm_lift cfg env db2 isCallClimateOff "last_hvac_off" 1
        (fun _ => rfl) (fun re => cma_off_acc cfg env re db2)).1
      rw [henv] at h
      exact h hdb2
    · intro env db2 henv
      have h := cm_lift cfg env db2 isCallClimateOff "last_hvac_off" 1
        (fun _ => rfl) (fun re => cma_off_acc cfg env re db2)
      rw [henv] at h
      exact ⟨h.2.1, h.2.2⟩
  · refine polls_at_most cfg d isCallNotify "last_cleaner_check" 2 ?_ ?_ envs db hd
    · intro env db2 henv hdb2
      have h := (cm_lift cfg env db2 isCallNotify "last_cleaner_check" 2
        (fun _ => rfl) (fun re => cma_cleaner_acc cfg env re db2)).1
      rw [henv] at h
      exact h hdb2
    · intro env db2 henv
      have h := cm_lift cfg env db2 isCallNotify "last_cleaner_check" 2
        (fun _ => rfl) (fun re => cma_cleaner_acc cfg env re db2)
      rw [henv] at h
      exact ⟨h.2.1, h.2.2⟩
  · refine polls_at_most cfg d isCallSetTemperature "last_hvac_on" 1 ?_ ?_ envs db hd
    · intro env db2 henv hdb2
      have h := (cm_lift cfg env db2 isCallSetTemperature "last_hvac_on" 1
        (fun _ => rfl) (fun re => cma_on_acc cfg env re db2)).1
      rw [henv] at h
      exact h hdb2
    · intro env db2 henv
      have h := cm_lift cfg env db2 isCallSetTemperature "last_hvac_on" 1
        (fun _ => rfl) (fun re => cma_on_acc cfg env re db2)
      rw [henv] at h
      exact ⟨h.2.1, h.2.2⟩

theorem C2_at_most_once_per_day_witness :
    (∀ env ∈ [envW, envW, envW], env.today = (0 : Date)) ∧
    (countEff isCallSetDatetime (run_polls cfgW [envW, envW, envW] emptyDb).2 ≤ 1 ∧
      countEff isCallClimateOff (run_polls cfgW [envW, envW, envW] emptyDb).2 ≤ 1 ∧
      countEff isCallNotify (run_polls cfgW [envW, envW, envW] emptyDb).2 ≤ 2 ∧
      countEff isCallSetTemperature (run_polls cfgW [envW, envW, envW] emptyDb).2 ≤ 1) :=
  ⟨by decide, C2_at_most_once_per_day cfgW [envW, envW, envW] emptyDb 0 (by decide)⟩

end AirbnbMgmt
